import Mathlib

/-!
Verification of the VIP agent core of the VOLTTRON repository
(`volttron/platform/vip/agent/core.py` and
`volttron/platform/vip/agent/subsystems/peerlist.py`), shallowly embedded
in Lean 4.  Python objects become records, in-place mutation becomes
explicit state passing, and the event loops become folds over the list of
events they process.
-/

namespace Volttron

/-- The VIP wire message (`volttron.platform.vip.socket.Message`), as used
throughout `core.py`: fields `peer`, `subsystem`, `id`, `user`, `args`.
Argument values are modelled as strings. -/
structure Message where
  peer : String
  subsystem : String
  id : String
  user : String
  args : List String
  deriving Repr, DecidableEq

/-! ### ScheduledEvent (core.py lines 124-141) -/

/-- `ScheduledEvent` from `core.py`.  The Python object carries the callback
`function` with its arguments plus the two flags; here the callback is
represented by the number of times it has been invoked (`executions`), which
is what the cancellation claims are about. -/
structure ScheduledEvent where
  canceled : Bool
  finished : Bool
  executions : Nat
  deriving Repr, DecidableEq

/-- A freshly constructed `ScheduledEvent`: both flags false, callback not
yet invoked. -/
def ScheduledEvent.new : ScheduledEvent :=
  { canceled := false, finished := false, executions := 0 }

/-- `ScheduledEvent.cancel`: mark the timer as canceled to avoid a
callback.  Only sets the flag. -/
def ScheduledEvent.cancel (ev : ScheduledEvent) : ScheduledEvent :=
  { ev with canceled := true }

/-- `ScheduledEvent.__call__`: invoke the callback unless canceled, then
set `finished` unconditionally. -/
def ScheduledEvent.call (ev : ScheduledEvent) : ScheduledEvent :=
  if ev.canceled then { ev with finished := true }
  else { ev with finished := true, executions := ev.executions + 1 }

/-! ### Scheduler (core.py: `get_tie_breaker`, `_schedule_callback`,
`schedule_loop`)

`BasicCore._schedule` is a Python `heapq` heap of tuples
`(deadline, tie_breaker, callback)`; `heapq` compares tuples
lexicographically and always pops the smallest.  Since every entry gets a
fresh `tie_breaker`, keys `(deadline, tie_breaker)` are distinct and the
callback is never compared.  The heap is embedded by its priority-queue
contract: the state is kept as a list sorted ascending by key
(`heappush` = ordered insert, `heappop` = head), which refines the
`heapq` semantics exactly when keys are distinct. -/

/-- One entry of `BasicCore._schedule`: the tuple
`(deadline, tie_breaker, callback)` pushed by `_schedule_callback`.
The callback is identified by a number. -/
structure SchedEntry where
  deadline : Nat
  seq : Nat
  cb : Nat
  deriving Repr, DecidableEq

/-- Lexicographic order on heap keys `(deadline, seq)`, as Python compares
the tuples `(deadline, tie_breaker, callback)` (the callback slot is never
reached because tie breakers are distinct). -/
def SchedEntry.keyLe (a b : SchedEntry) : Prop :=
  a.deadline < b.deadline ∨ (a.deadline = b.deadline ∧ a.seq ≤ b.seq)

instance : DecidableRel SchedEntry.keyLe := fun a b => by
  unfold SchedEntry.keyLe; infer_instance

instance : IsTotal SchedEntry SchedEntry.keyLe :=
  ⟨by intro a b; unfold SchedEntry.keyLe; omega⟩

instance : IsTrans SchedEntry SchedEntry.keyLe :=
  ⟨by intro a b c; unfold SchedEntry.keyLe; omega⟩

/-- The scheduling fields of `BasicCore`: `tie_breaker` (line 173) and the
`_schedule` heap (line 167). -/
structure BasicCoreSched where
  tie_breaker : Nat
  schedule : List SchedEntry
  deriving Repr, DecidableEq

/-- `BasicCore.get_tie_breaker` (lines 425-427): increment and return. -/
def get_tie_breaker (s : BasicCoreSched) : Nat × BasicCoreSched :=
  (s.tie_breaker + 1, { s with tie_breaker := s.tie_breaker + 1 })

/-- `BasicCore._schedule_callback` (lines 429-434): push
`(deadline, get_tie_breaker(), callback)` onto the heap. -/
def schedule_callback (s : BasicCoreSched) (deadline cb : Nat) : BasicCoreSched :=
  let tb := get_tie_breaker s
  { tb.2 with
    schedule := List.orderedInsert SchedEntry.keyLe
      { deadline := deadline, seq := tb.1, cb := cb } tb.2.schedule }

/-- Fold a sequence of `schedule(deadline, callback)` calls over a fresh
core (`tie_breaker = 0`, empty heap). -/
def scheduleAll (calls : List (Nat × Nat)) : BasicCoreSched :=
  calls.foldl (fun s c => schedule_callback s c.1 c.2) ⟨0, []⟩

/-- The order in which `schedule_loop` (lines 252-269) fires the entries
once their deadlines pass: `heappop` always removes the least key, so
draining the heap yields the entries in ascending key order — with the
sorted-list representation, the list itself. -/
def fireOrder (calls : List (Nat × Nat)) : List SchedEntry :=
  (scheduleAll calls).schedule

/-- The entries a sequence of schedule calls submits, with the tie breaker
each call receives when starting from tie breaker `tb`: the i-th call gets
sequence number `tb + i + 1`. -/
def entriesFrom : Nat → List (Nat × Nat) → List SchedEntry
  | _, [] => []
  | tb, (d, cb) :: rest => { deadline := d, seq := tb + 1, cb := cb } :: entriesFrom (tb + 1) rest

/-- Entries submitted by `calls` on a fresh core. -/
def entriesOf (calls : List (Nat × Nat)) : List SchedEntry :=
  entriesFrom 0 calls

/-! ### Connection handshake (core.py: `Core.create_event_handlers`,
lines 588-631, and the `ZMQCore.loop.vip_loop` welcome branch,
lines 807-821) -/

/-- The `HelloState` object built in `ZMQCore.loop` (line 715):
`count` starts at 0, `ident` at `None`. -/
structure HelloState where
  count : Nat
  ident : Option String
  deriving Repr, DecidableEq

/-- `hello()` (core.py lines 608-618): record
`ident = 'connect.hello.%d' % count`, bump the count, spawn
`connection_failed_check`, and send the hello message
`Message(peer='', subsystem='hello', id=ident, args=['hello'])`. -/
def hello (st : HelloState) : HelloState × Message :=
  let ident := "connect.hello." ++ toString st.count
  ({ count := st.count + 1, ident := some ident },
   { peer := "", subsystem := "hello", id := ident, user := "", args := ["hello"] })

/-- The fields of `BasicCore.run` / `BasicCore.stop` the handshake-timeout
claim depends on: `_stop_event`.  `BasicCore.stop` sets it and `run`
blocks on `stop.wait()` (line 295), returning once it is set. -/
structure RunState where
  stopEventSet : Bool
  deriving Repr, DecidableEq

/-- `BasicCore.stop` (lines 306-316): `halt()` sets `_stop_event`. -/
def BasicCore.stop (rs : RunState) : RunState :=
  { rs with stopEventSet := true }

/-- `run` returns once the stop event is set: its `stop.wait()` on line
295 unblocks and only the shutdown phases remain. -/
def runReturns (rs : RunState) : Bool :=
  rs.stopEventSet

/-- The handshake liveness timeout: `hello_response_event.wait(10.0)` on
core.py line 594. -/
def helloTimeoutSeconds : Nat := 10

/-- Log and stop actions of `connection_failed_check`. -/
inductive CheckEffect where
  | logNoResponse
  | logIdentityHint
  | logAuthHint
  | logShuttingDown
  | calledStop (timeout : Nat)
  deriving Repr, DecidableEq

/-- `connection_failed_check` (core.py lines 591-606), as a function of
whether `hello_response_event` was set within `helloTimeoutSeconds`
seconds of the hello being sent: if it was, return; otherwise log the
failure hints (conflicting VIP identity, missing auth entry) and call
`self.stop(timeout=10.0)`. -/
def connection_failed_check (helloResponseEventSet : Bool) (rs : RunState) :
    RunState × List CheckEffect :=
  if helloResponseEventSet then (rs, [])
  else (BasicCore.stop rs,
        [.logNoResponse, .logIdentityHint, .logAuthHint, .logShuttingDown,
         .calledStop helloTimeoutSeconds])

/-! ### The receive loop (`ZMQCore.loop.vip_loop`, core.py lines 789-836) -/

/-- `router._INVALID_SUBSYSTEM` used on core.py line 829.
Modelled from the spec: `volttron/platform/vip/router.py` is not under
src/; per the spec's error frame contract (§6) the constant is the pair
[errorCode, errorMessage] for the "unknown subsystem" condition. -/
def INVALID_SUBSYSTEM : List String :=
  ["93", "Protocol not supported"]

/-- `Core.delay_onstart_signal` (core.py line 475): `Core` delays the
`onstart` signal until the welcome response arrives. -/
def Core.delay_onstart_signal : Bool := true

/-- `Core.delay_running_event_set` (core.py line 478). -/
def Core.delay_running_event_set : Bool := true

/-- Observable state of the receive loop and the lifecycle signals the
welcome response drives.  `ident` is `state.ident` of the `HelloState`;
the four flags model `hello_response_event`, the `onstart` and
`configuration` signal emissions of `hello_response` (lines 620-629) and
the caller-supplied `running_event`. -/
structure VipState where
  ident : Option String
  connected : Bool
  onstartFired : Bool
  configurationFired : Bool
  runningEventSet : Bool
  helloResponseEventSet : Bool
  deriving Repr, DecidableEq

/-- State of the receive loop right after `BasicCore.run` reaches its wait
(lines 287-291): with `Core.delay_onstart_signal` and
`Core.delay_running_event_set` both true, neither `onstart` nor the
running event has fired yet. -/
def initialVipState (ident : Option String) : VipState :=
  { ident := ident
    connected := false
    onstartFired := !Core.delay_onstart_signal
    configurationFired := false
    runningEventSet := !Core.delay_running_event_set
    helloResponseEventSet := false }

/-- The welcome test of `vip_loop` (core.py lines 812-814):
`str(subsystem) == 'hello' and message.id == state.ident and
len(message.args) > 3 and message.args[0] == 'welcome'`.  When `ident`
is `None` the id comparison is false. -/
def isWelcome (ident : Option String) (m : Message) : Bool :=
  m.subsystem == "hello" && ident == some m.id &&
    decide (m.args.length > 3) && m.args.head? == some "welcome"

/-- `hello_response` (core.py lines 620-629): set
`hello_response_event`, emit `onstart` and `configuration`, and set the
caller's running event when one was supplied. -/
def hello_response (hasRunningEvent : Bool) (s : VipState) : VipState :=
  { s with
    helloResponseEventSet := true
    onstartFired := true
    configurationFired := true
    runningEventSet := s.runningEventSet || hasRunningEvent }

/-- Externally visible actions of one `vip_loop` iteration. -/
inductive VipEffect where
  | firedOnconnected (version router identity : String)
  | handled (subsystem : String) (m : Message)
  | loggedUnknown (peer subsystem : String)
  | sent (m : Message)
  deriving Repr, DecidableEq

/-- One iteration of `vip_loop` (core.py lines 807-834) on a received
message.  `subsystems` is the key set of the `Core.subsystems` dict.
Returns the new state, the message object's fields after the iteration
(the Python loop mutates the received object in place on the
unknown-subsystem path), and the visible effects, in order:

* welcome frames matching the outstanding hello ident set
  `connected = True` and send `onconnected`, whose sole receiver is
  `hello_response` (connected on line 780);
* frames whose subsystem is registered are passed to the handler;
* otherwise the received message is mutated — `user = ''`,
  `args = list(_INVALID_SUBSYSTEM) + [subsystem]`, `subsystem = 'error'`
  — and sent back on the socket. -/
def vipStep (subsystems : List String) (hasRunningEvent : Bool)
    (s : VipState) (m : Message) : VipState × Message × List VipEffect :=
  if isWelcome s.ident m then
    let s' := hello_response hasRunningEvent { s with connected := true }
    (s', m, [.firedOnconnected (m.args.getD 1 "") (m.args.getD 2 "") (m.args.getD 3 "")])
  else if m.subsystem ∈ subsystems then
    (s, m, [.handled m.subsystem m])
  else
    let m' : Message :=
      { m with
        user := ""
        args := INVALID_SUBSYSTEM ++ [m.subsystem]
        subsystem := "error" }
    (s, m', [.loggedUnknown m.peer m.subsystem, .sent m'])

/-- The receive loop over a list of delivered frames, accumulating the
visible effects. -/
def runVipLoop (subsystems : List String) (hasRunningEvent : Bool)
    (s : VipState) : List Message → VipState × List VipEffect
  | [] => (s, [])
  | m :: rest =>
    let r := vipStep subsystems hasRunningEvent s m
    let r' := runVipLoop subsystems hasRunningEvent r.1 rest
    (r'.1, r.2.2 ++ r'.2)

/-! ### Socket monitor (`ZMQCore.loop.monitor`, core.py lines 730-778) -/

/-- The discrete socket events the monitor loop distinguishes
(`zmq.EVENT_CONNECTED`, `EVENT_DISCONNECTED`, `EVENT_CONNECT_RETRIED`,
`EVENT_MONITOR_STOPPED`; distinct bits tested by the `elif` chain). -/
inductive MonitorEvent where
  | connected
  | disconnected
  | connectRetried
  | monitorStopped
  | other
  deriving Repr, DecidableEq

/-- The core fields the monitor loop manipulates: `_reconnect_attempt`
(initialised to 0 on core.py line 511 and never reset), the `connected`
property, whether `stop()` was called and whether the `ondisconnected`
signal was sent.  `helloSent` counts invocations of `hello()` triggered
by connect events. -/
structure MonitorState where
  reconnect_attempt : Nat
  connected : Bool
  stopped : Bool
  ondisconnectedFired : Bool
  helloSent : Nat
  deriving Repr, DecidableEq

/-- Monitor state at agent start. -/
def initialMonitorState : MonitorState :=
  { reconnect_attempt := 0, connected := false, stopped := false,
    ondisconnectedFired := false, helloSent := 0 }

/-- One iteration of the monitor loop body (core.py lines 745-760):
connect events trigger `hello()`; disconnect events clear `connected`;
each connect-retry event increments `_reconnect_attempt`, and when the
counter reaches exactly 50 the core clears `connected`, disables the
monitor, calls `stop()` and sends `ondisconnected`. -/
def monitorStep (s : MonitorState) : MonitorEvent → MonitorState
  | .connected => { s with helloSent := s.helloSent + 1 }
  | .disconnected => { s with connected := false }
  | .connectRetried =>
    let n := s.reconnect_attempt + 1
    if n = 50 then
      { s with reconnect_attempt := n, connected := false, stopped := true,
               ondisconnectedFired := true }
    else
      { s with reconnect_attempt := n }
  | .monitorStopped => s
  | .other => s

/-- The monitor loop over a stream of socket events
(`EVENT_MONITOR_STOPPED` breaks the loop, so no later event is
processed). -/
def runMonitor (s : MonitorState) : List MonitorEvent → MonitorState
  | [] => s
  | .monitorStopped :: _ => s
  | e :: rest => runMonitor (monitorStep s e) rest

/-! ### Subsystem registry (`Core.__init__` line 514, `Core.register`
lines 569-578) -/

/-- The registry part of `Core`: the `subsystems` dict (modelled as a map
from subsystem name to a handler identified by a number) together with the
receivers hung on `onviperror` by `register`'s `onerror` closures — each
filters for errors whose `subsystem` equals the registered name. -/
structure CoreRegistry where
  subsystems : String → Option Nat
  onviperrorReceivers : List (String × Nat)

/-- `Core.__init__` (line 514): `self.subsystems = {'error':
self.handle_error}`; the built-in error handler is number 0. -/
def initCoreRegistry : CoreRegistry :=
  { subsystems := fun n => if n = "error" then some 0 else none
    onviperrorReceivers := [] }

/-- `Core.register(name, handler, error_handler=None)` (lines 569-578):
`self.subsystems[name] = handler` — a plain dict assignment — and, when an
error handler is supplied, connect a filtering receiver to `onviperror`. -/
def Core.register (s : CoreRegistry) (name : String) (handler : Nat)
    (error_handler : Option Nat) : CoreRegistry :=
  { subsystems := fun n => if n = name then some handler else s.subsystems n
    onviperrorReceivers :=
      match error_handler with
      | none => s.onviperrorReceivers
      | some eh => s.onviperrorReceivers ++ [(name, eh)] }

/-! ### Built-in error subsystem handler (`Core.handle_error`,
core.py lines 580-586) -/

/-- The VIP error object built by `VIPError.from_errno(*message.args)`.
Modelled from the spec: `volttron/platform/vip/agent/errors.py` is not
under src/; per the spec's error frame contract (§6) the error carries
the error code, the error message and the remaining context arguments. -/
structure VIPError where
  errnum : String
  msg : String
  context : List String
  deriving Repr, DecidableEq

/-- `VIPError.from_errno` applied to the args of an error frame. -/
def VIPError.from_errno (args : List String) : VIPError :=
  { errnum := args.getD 0 "", msg := args.getD 1 "", context := args.drop 2 }

/-- Visible outcomes of `Core.handle_error`. -/
inductive CoreErrorEffect where
  | loggedUnhandled (m : Message)
  | viperrorEmitted (e : VIPError) (m : Message)
  deriving Repr, DecidableEq

/-- `Core.handle_error` (lines 580-586): messages with fewer than 4 args
are only logged; otherwise `onviperror` is sent once with
`VIPError.from_errno(*message.args)`.  The `elif self.onviperror:` guard
holds whenever the signal object exists — `Core.__init__` always creates
it (line 497) and a `Signal` object is truthy (modelled from the spec §2:
a `Signal` is an observer registry object; `dispatch.py` is not under
src/). -/
def Core.handle_error (m : Message) : List CoreErrorEffect :=
  if m.args.length < 4 then [.loggedUnhandled m]
  else [.viperrorEmitted (VIPError.from_errno m.args) m]

/-- Number of `onviperror` emissions among the effects. -/
def emittedCount (effs : List CoreErrorEffect) : Nat :=
  (effs.filter fun e =>
    match e with
    | .viperrorEmitted _ _ => true
    | _ => false).length

/-! ### PeerList subsystem (subsystems/peerlist.py) -/

/-- The pending side of the `ResultsDictionary` owned by `PeerList`.
Modelled from the spec: `volttron/platform/vip/agent/results.py` is not
under src/; per §4.5 it is a dict from correlation ident to pending
future, so the pending key set is modelled as a predicate. -/
def ResultsDictionary := String → Bool

/-- `dict.pop(ident)`: `None` models the `KeyError` branch; otherwise the
entry is removed. -/
def rdPop (r : ResultsDictionary) (ident : String) : Option ResultsDictionary :=
  if r ident then some (fun i => if i = ident then false else r i) else none

/-- The `PeerList` fields the handlers touch: `_results` and
`peers_list`. -/
structure PeerListState where
  results : ResultsDictionary
  peers_list : List String

/-- Visible actions of the `PeerList` handlers. -/
inductive PeerEffect where
  | logMissingOp
  | logMissingIdentity (op : String)
  | logUnknownOp (op : String)
  | signalOn (op : String) (peer : String) (message_bus : Option String)
  | resolved (ident : String) (peers : List String)
  | resolvedJson (ident : String) (payload : String)
  | rejected (ident : String)
  deriving Repr, DecidableEq

/-- `PeerList._handle_subsystem` (peerlist.py lines 112-157).  The
`add`/`drop` branch fires the `onadd`/`ondrop` signal and updates
`peers_list` (an empty `message_bus` string is falsy in Python, hence the
`Option`); the `listing` branches pop `message.id` from `_results`,
returning silently when the id is unknown (`KeyError` caught), and
complete the future exactly once otherwise. -/
def handle_subsystem (st : PeerListState) (m : Message) :
    PeerListState × List PeerEffect :=
  match m.args.head? with
  | none => (st, [.logMissingOp])
  | some op =>
    if op = "add" ∨ op = "drop" then
      match m.args.get? 1 with
      | none => (st, [.logMissingIdentity op])
      | some peer =>
        let mb : Option String :=
          match m.args.get? 2 with
          | none => none
          | some s => if s = "" then none else some s
        let st' :=
          if op = "add" then
            { st with peers_list :=
                if peer ∈ st.peers_list then st.peers_list
                else st.peers_list ++ [peer] }
          else
            { st with peers_list := st.peers_list.erase peer }
        (st', [.signalOn ("on" ++ op) peer mb])
    else if op = "listing" then
      match rdPop st.results m.id with
      | none => (st, [])
      | some rest =>
        let peers := m.args.drop 1
        ({ results := rest, peers_list := peers.dedup },
         [.resolved m.id peers])
    else if op = "listing_with_messagebus" then
      match rdPop st.results m.id with
      | none => (st, [])
      | some rest =>
        ({ st with results := rest }, [.resolvedJson m.id (m.args.getD 1 "")])
    else
      (st, [.logUnknownOp op])

/-- `PeerList._handle_error` (peerlist.py lines 159-164): pop
`message.id` from `_results`; unknown ids return silently (`KeyError`
caught), known ids complete the future with the error. -/
def handle_error_peerlist (st : PeerListState) (m : Message) :
    PeerListState × List PeerEffect :=
  match rdPop st.results m.id with
  | none => (st, [])
  | some rest => ({ st with results := rest }, [.rejected m.id])

/-! ### Small observers used by the statements -/

/-- Whether a receive-loop effect is a frame send. -/
def isSentEffect : VipEffect → Bool
  | .sent _ => true
  | _ => false

/-- Whether a monitor event is a connect-retry report. -/
def isRetry : MonitorEvent → Bool
  | .connectRetried => true
  | _ => false

/-- Number of connect-retry events in a monitor event stream. -/
def retryCount (events : List MonitorEvent) : Nat :=
  (events.filter isRetry).length

/-! ## Theorems -/

/-! ### Scheduler ordering (claim C2) -/

theorem entriesFrom_seq_bound (calls : List (Nat × Nat)) : ∀ tb : Nat,
    (∀ e ∈ entriesFrom tb calls, tb < e.seq)
    ∧ (entriesFrom tb calls).Pairwise (fun a b => a.seq < b.seq) := by
  induction calls with
  | nil =>
    intro tb
    constructor
    · intro e he; simp [entriesFrom] at he
    · simp [entriesFrom]
  | cons c rest ih =>
    intro tb
    obtain ⟨d, cb⟩ := c
    constructor
    · intro e he
      simp only [entriesFrom, List.mem_cons] at he
      rcases he with rfl | he
      · simp
      · have := (ih (tb + 1)).1 e he
        omega
    · simp only [entriesFrom]
      refine List.Pairwise.cons (fun e he => ?_) (ih (tb + 1)).2
      have := (ih (tb + 1)).1 e he
      simpa using by omega

theorem entriesFrom_enumFrom (calls : List (Nat × Nat)) : ∀ tb : Nat,
    entriesFrom tb calls
      = (calls.enumFrom (tb + 1)).map
          (fun p => { deadline := p.2.1, seq := p.1, cb := p.2.2 }) := by
  induction calls with
  | nil => intro tb; simp [entriesFrom]
  | cons c rest ih =>
    intro tb
    obtain ⟨d, cb⟩ := c
    simp [entriesFrom, List.enumFrom, ih (tb + 1)]

theorem scheduleAll_fold_spec (calls : List (Nat × Nat)) : ∀ s : BasicCoreSched,
    ((calls.foldl (fun s c => schedule_callback s c.1 c.2) s).schedule).Perm
      (s.schedule ++ entriesFrom s.tie_breaker calls)
    ∧ (calls.foldl (fun s c => schedule_callback s c.1 c.2) s).tie_breaker
      = s.tie_breaker + calls.length := by
  induction calls with
  | nil => intro s; simp [entriesFrom]
  | cons c rest ih =>
    intro s
    obtain ⟨d, cb⟩ := c
    rw [List.foldl_cons]
    constructor
    · refine ((ih _).1).trans ?_
      show (List.orderedInsert SchedEntry.keyLe
            { deadline := d, seq := s.tie_breaker + 1, cb := cb } s.schedule
            ++ entriesFrom (s.tie_breaker + 1) rest).Perm
          (s.schedule ++ entriesFrom s.tie_breaker ((d, cb) :: rest))
      simp only [entriesFrom]
      refine ((List.perm_orderedInsert _ _ _).append_right _).trans ?_
      exact List.perm_middle.symm
    · have h2 := (ih (schedule_callback s d cb)).2
      have h3 : (schedule_callback s d cb).tie_breaker = s.tie_breaker + 1 := rfl
      rw [h3] at h2
      rw [h2]
      simp [List.length_cons]
      omega

theorem scheduleAll_fold_sorted (calls : List (Nat × Nat)) : ∀ s : BasicCoreSched,
    List.Sorted SchedEntry.keyLe s.schedule →
    List.Sorted SchedEntry.keyLe
      (calls.foldl (fun s c => schedule_callback s c.1 c.2) s).schedule := by
  induction calls with
  | nil => intro s h; simpa using h
  | cons c rest ih =>
    intro s h
    obtain ⟨d, cb⟩ := c
    rw [List.foldl_cons]
    exact ih _ (h.orderedInsert _ _)

/-- C2: for every sequence of `schedule(deadline, callback)` calls, the
scheduler fires the callbacks in non-decreasing deadline order, equal
deadlines firing in submission order: the fire order is a permutation of
the submitted entries, strictly sorted by the key
`(deadline, tie_breaker)`, the tie breaker being the monotonically
increasing insertion sequence number (the i-th submission receives
sequence number i+1, as the `enumFrom` form states). -/
theorem scheduler_fire_order (calls : List (Nat × Nat)) :
    (fireOrder calls).Perm (entriesOf calls)
    ∧ (fireOrder calls).Pairwise
        (fun a b => a.deadline < b.deadline ∨ (a.deadline = b.deadline ∧ a.seq < b.seq))
    ∧ (fireOrder calls).Pairwise (fun a b => a.deadline ≤ b.deadline)
    ∧ (entriesOf calls).Pairwise (fun a b => a.seq < b.seq)
    ∧ entriesOf calls
        = (calls.enumFrom 1).map
            (fun p => { deadline := p.2.1, seq := p.1, cb := p.2.2 }) := by
  have hfold := scheduleAll_fold_spec calls ⟨0, []⟩
  have hperm : (fireOrder calls).Perm (entriesOf calls) := by
    simpa [fireOrder, scheduleAll, entriesOf] using hfold.1
  have hsorted : List.Sorted SchedEntry.keyLe (fireOrder calls) := by
    have := scheduleAll_fold_sorted calls ⟨0, []⟩ (by simp)
    simpa [fireOrder, scheduleAll] using this
  have hseq : (entriesOf calls).Pairwise (fun a b => a.seq < b.seq) :=
    (entriesFrom_seq_bound calls 0).2
  have hne : (fireOrder calls).Pairwise (fun a b => a.seq ≠ b.seq) := by
    have h2 : (entriesOf calls).Pairwise (fun a b => a.seq ≠ b.seq) :=
      hseq.imp (fun h => Nat.ne_of_lt h)
    exact (hperm.pairwise_iff (fun h => Ne.symm h)).mpr h2
  have hstrict : (fireOrder calls).Pairwise
      (fun a b => a.deadline < b.deadline ∨ (a.deadline = b.deadline ∧ a.seq < b.seq)) := by
    have hand := List.Pairwise.and hsorted hne
    refine hand.imp ?_
    intro a b h
    obtain ⟨h1, h2⟩ := h
    unfold SchedEntry.keyLe at h1
    omega
  refine ⟨hperm, hstrict, hstrict.imp ?_, hseq, entriesFrom_enumFrom calls 0⟩
  intro a b h
  omega

/-! ### ScheduledEvent cancellation (claim C6) -/

/-- C6: for every `ScheduledEvent`, canceling strictly before the event
fires prevents the callback from ever executing (firing a canceled event
performs no invocation), `cancel` is idempotent, `cancel` itself never
invokes the callback (so canceling after the event fired never causes a
second execution and leaves the completed invocation untouched). -/
theorem scheduledEvent_cancel_semantics (ev : ScheduledEvent) :
    (ev.cancel.call).executions = ev.executions
    ∧ ev.cancel.cancel = ev.cancel
    ∧ (ev.cancel).executions = ev.executions
    ∧ (ev.cancel).finished = ev.finished
    ∧ (ev.call.cancel).executions = ev.call.executions
    ∧ (ScheduledEvent.new.cancel.call).executions = 0 := by
  unfold ScheduledEvent.call ScheduledEvent.cancel ScheduledEvent.new
  simp

/-! ### Handshake timeout (claim C3) -/

/-- C3: if no welcome response has been processed within
`helloTimeoutSeconds` (10) seconds of the hello being sent —
`hello_response_event` still unset when the timer fires —
`connection_failed_check` logs the failure hints and calls
`stop(timeout=10.0)`, which sets the stop event so that `run()` returns;
if the welcome did arrive in time it does nothing. -/
theorem handshake_timeout_forces_stop (rs : RunState) :
    (connection_failed_check false rs).1.stopEventSet = true
    ∧ runReturns (connection_failed_check false rs).1 = true
    ∧ CheckEffect.calledStop helloTimeoutSeconds ∈ (connection_failed_check false rs).2
    ∧ CheckEffect.logIdentityHint ∈ (connection_failed_check false rs).2
    ∧ CheckEffect.logAuthHint ∈ (connection_failed_check false rs).2
    ∧ helloTimeoutSeconds = 10
    ∧ connection_failed_check true rs = (rs, []) := by
  unfold connection_failed_check runReturns BasicCore.stop helloTimeoutSeconds
  simp

/-! ### Built-in error handler (claim C10) -/

/-- C10: an inbound frame delivered to the built-in `error` subsystem
handler with fewer than 4 args is only logged and no `onviperror` signal
is emitted; with 4 or more args exactly one `onviperror` emission occurs,
carrying the `VIPError` constructed from the frame's args. -/
theorem handle_error_emits_iff_enough_args (m : Message) :
    (m.args.length < 4 →
      Core.handle_error m = [.loggedUnhandled m]
      ∧ emittedCount (Core.handle_error m) = 0)
    ∧ (4 ≤ m.args.length →
      Core.handle_error m = [.viperrorEmitted (VIPError.from_errno m.args) m]
      ∧ emittedCount (Core.handle_error m) = 1) := by
  unfold Core.handle_error emittedCount
  constructor
  · intro h
    simp [h]
  · intro h
    simp [Nat.not_lt.mpr h]

/-- Witness for C10 at concrete frames: a 1-arg error frame is only
logged, a 4-arg error frame produces exactly one emission. -/
theorem handle_error_emits_iff_enough_args_witness :
    ((["x"] : List String).length < 4
      ∧ emittedCount (Core.handle_error
          { peer := "p", subsystem := "error", id := "i", user := "", args := ["x"] }) = 0)
    ∧ (4 ≤ (["7", "err", "p2", "rpc"] : List String).length
      ∧ emittedCount (Core.handle_error
          { peer := "p", subsystem := "error", id := "i", user := "",
            args := ["7", "err", "p2", "rpc"] }) = 1) :=
  ⟨⟨by decide,
    ((handle_error_emits_iff_enough_args
      { peer := "p", subsystem := "error", id := "i", user := "", args := ["x"] }).1
      (by decide)).2⟩,
   ⟨by decide,
    ((handle_error_emits_iff_enough_args
      { peer := "p", subsystem := "error", id := "i", user := "",
        args := ["7", "err", "p2", "rpc"] }).2
      (by decide)).2⟩⟩

/-! ### Subsystem registry (claim C8) -/

/-- C8 counterexample: the claim says registering a subsystem name that
already has a handler is a programming error and silent
last-registration-wins replacement is disallowed; but `Core.register` is
a plain dict assignment: registering `"foo"` twice raises nothing and the
second handler silently replaces the first. -/
theorem register_duplicate_silently_replaces :
    ((Core.register (Core.register initCoreRegistry "foo" 1 none) "foo" 2 none).subsystems "foo"
      = some 2)
    ∧ ((Core.register initCoreRegistry "foo" 1 none).subsystems "foo" = some 1)
    ∧ (1 : Nat) ≠ 2 := by
  unfold Core.register initCoreRegistry
  simp

/-- C8 amended: the registry keeps at most one handler per subsystem name
because it is a map, and `register` installs the handler unconditionally —
a duplicate registration silently replaces the previous handler (last
registration wins) and leaves every other name untouched. -/
theorem register_is_last_wins (s : CoreRegistry) (name : String) (h : Nat)
    (eh : Option Nat) :
    (Core.register s name h eh).subsystems name = some h
    ∧ ∀ n, n ≠ name → (Core.register s name h eh).subsystems n = s.subsystems n := by
  unfold Core.register
  constructor
  · simp
  · intro n hn
    simp [hn]

/-- Witness for C8's amended claim: registering `"rpc"` over the initial
registry finds `"rpc"` and leaves the built-in `"error"` entry intact. -/
theorem register_is_last_wins_witness :
    (Core.register initCoreRegistry "rpc" 3 none).subsystems "rpc" = some 3
    ∧ (Core.register initCoreRegistry "rpc" 3 none).subsystems "error" = some 0 :=
  ⟨(register_is_last_wins initCoreRegistry "rpc" 3 none).1,
   by
    have h := (register_is_last_wins initCoreRegistry "rpc" 3 none).2 "error" (by decide)
    rw [h]
    rfl⟩

/-! ### Receive loop and the onstart ordering (claim C1) -/

theorem vipStep_state_not_welcome (subs : List String) (hre : Bool)
    (s : VipState) (m : Message) (h : isWelcome s.ident m = false) :
    (vipStep subs hre s m).1 = s := by
  unfold vipStep
  simp only [h, Bool.false_eq_true, if_false]
  split <;> rfl

theorem vipStep_state_welcome (subs : List String) (hre : Bool)
    (s : VipState) (m : Message) (h : isWelcome s.ident m = true) :
    (vipStep subs hre s m).1 = hello_response hre { s with connected := true } := by
  unfold vipStep
  simp only [h, if_true]

theorem runVipLoop_signals (subs : List String) (hre : Bool)
    (frames : List Message) : ∀ s : VipState,
    (runVipLoop subs hre s frames).1.ident = s.ident
    ∧ (runVipLoop subs hre s frames).1.onstartFired
        = (s.onstartFired || frames.any (isWelcome s.ident))
    ∧ (runVipLoop subs hre s frames).1.runningEventSet
        = (s.runningEventSet || (hre && frames.any (isWelcome s.ident)))
    ∧ (runVipLoop subs hre s frames).1.helloResponseEventSet
        = (s.helloResponseEventSet || frames.any (isWelcome s.ident)) := by
  induction frames with
  | nil => intro s; simp [runVipLoop]
  | cons m rest ih =>
    intro s
    simp only [runVipLoop]
    by_cases hw : isWelcome s.ident m = true
    · rw [vipStep_state_welcome subs hre s m hw]
      obtain ⟨hident, hon, hrun, hhello⟩ := ih (hello_response hre { s with connected := true })
      have hid2 : (hello_response hre { s with connected := true }).ident = s.ident := rfl
      rw [hid2] at hident hon hrun hhello
      refine ⟨hident, ?_, ?_, ?_⟩
      · rw [hon]
        simp [hello_response, List.any_cons, hw]
      · rw [hrun]
        simp only [hello_response, List.any_cons, hw, Bool.true_or, Bool.and_true]
        cases s.runningEventSet <;> cases hre <;>
          cases rest.any (isWelcome s.ident) <;> rfl
      · rw [hhello]
        simp [hello_response, List.any_cons, hw]
    · have hw' : isWelcome s.ident m = false := by
        revert hw; cases isWelcome s.ident m <;> simp
      rw [vipStep_state_not_welcome subs hre s m hw']
      obtain ⟨hident, hon, hrun, hhello⟩ := ih s
      exact ⟨hident, by rw [hon]; simp [List.any_cons, hw'],
             by rw [hrun]; simp [List.any_cons, hw'],
             by rw [hhello]; simp [List.any_cons, hw']⟩

/-- C1: for a `Core` runtime (`delay_onstart_signal = True`), `onstart`
observers and the caller-supplied running event fire exactly when the
receive loop has processed a welcome frame matching the outstanding hello
correlation id — a frame with subsystem `hello`, id equal to the ident
recorded by `hello()`, more than 3 args and `args[0] = 'welcome'` — and
never before: after processing any list of frames, `onstart` has fired
iff some processed frame was such a welcome. -/
theorem onstart_only_after_matching_welcome (subs : List String) (hre : Bool)
    (hs : HelloState) (frames : List Message) :
    ((runVipLoop subs hre (initialVipState (hello hs).1.ident) frames).1.onstartFired
      = frames.any (isWelcome (hello hs).1.ident))
    ∧ ((runVipLoop subs hre (initialVipState (hello hs).1.ident) frames).1.runningEventSet
      = (hre && frames.any (isWelcome (hello hs).1.ident)))
    ∧ (hello hs).1.ident = some (hello hs).2.id
    ∧ (hello hs).2.subsystem = "hello"
    ∧ (∀ m : Message, isWelcome (hello hs).1.ident m = true →
        m.subsystem = "hello" ∧ m.id = (hello hs).2.id
        ∧ 3 < m.args.length ∧ m.args.head? = some "welcome") := by
  obtain ⟨_, hon, hrun, _⟩ :=
    runVipLoop_signals subs hre frames (initialVipState (hello hs).1.ident)
  refine ⟨?_, ?_, rfl, rfl, ?_⟩
  · rw [hon]
    simp [initialVipState, Core.delay_onstart_signal]
  · rw [hrun]
    simp [initialVipState, Core.delay_running_event_set]
  · intro m hm
    unfold isWelcome at hm
    simp only [Bool.and_eq_true, beq_iff_eq, decide_eq_true_eq] at hm
    obtain ⟨⟨⟨h1, h2⟩, h3⟩, h4⟩ := hm
    refine ⟨h1, ?_, h3, h4⟩
    have hident : (hello hs).1.ident = some (hello hs).2.id := rfl
    rw [hident] at h2
    exact (Option.some_inj.mp h2).symm

/-- Witness for C1: with the hello recorded as `connect.hello.0`,
processing the single matching welcome frame fires `onstart`, and that
frame satisfies every component of the welcome predicate. -/
theorem onstart_only_after_matching_welcome_witness :
    (isWelcome (hello { count := 0, ident := none }).1.ident
      { peer := "", subsystem := "hello", id := "connect.hello.0", user := "",
                args := ["welcome", "1.0", "router", "me"] } = true)
    ∧ ({ peer := "", subsystem := "hello", id := "connect.hello.0", user := "",
                args := ["welcome", "1.0", "router", "me"] } : Message).id
        = (hello { count := 0, ident := none }).2.id :=
  ⟨by decide,
   ((onstart_only_after_matching_welcome [] false { count := 0, ident := none } []).2.2.2.2
     { peer := "", subsystem := "hello", id := "connect.hello.0", user := "",
              args := ["welcome", "1.0", "router", "me"] } (by decide)).2.1⟩

/-! ### Unknown subsystem dispatch (claim C5) -/

/-- C5: when the receive loop dispatches a frame whose subsystem has no
registered handler (and which is not the welcome), it sends exactly one
reply frame — subsystem `error`, the unknown-subsystem error code with the
original subsystem name appended to the args, addressed to the original
peer — the local loop state is unchanged and the loop keeps processing
subsequent frames. -/
theorem unknown_subsystem_error_reply (subs : List String) (hre : Bool)
    (s : VipState) (m : Message)
    (hw : isWelcome s.ident m = false) (hun : m.subsystem ∉ subs) :
    (vipStep subs hre s m).1 = s
    ∧ (vipStep subs hre s m).2.2
        = [.loggedUnknown m.peer m.subsystem, .sent (vipStep subs hre s m).2.1]
    ∧ ((vipStep subs hre s m).2.2.filter isSentEffect).length = 1
    ∧ (vipStep subs hre s m).2.1.peer = m.peer
    ∧ (vipStep subs hre s m).2.1.id = m.id
    ∧ (vipStep subs hre s m).2.1.subsystem = "error"
    ∧ (vipStep subs hre s m).2.1.args = INVALID_SUBSYSTEM ++ [m.subsystem]
    ∧ ∀ rest, runVipLoop subs hre s (m :: rest)
        = ((runVipLoop subs hre s rest).1,
           (vipStep subs hre s m).2.2 ++ (runVipLoop subs hre s rest).2) := by
  have hstep : vipStep subs hre s m
      = (s, { m with user := "", args := INVALID_SUBSYSTEM ++ [m.subsystem],
                     subsystem := "error" },
         [.loggedUnknown m.peer m.subsystem,
          .sent { m with user := "", args := INVALID_SUBSYSTEM ++ [m.subsystem],
                         subsystem := "error" }]) := by
    unfold vipStep
    simp only [hw, Bool.false_eq_true, if_false]
    rw [if_neg hun]
  rw [hstep]
  refine ⟨rfl, rfl, by simp [isSentEffect], rfl, rfl, rfl, rfl, ?_⟩
  intro rest
  simp only [runVipLoop, hstep]

/-- Witness for C5: a concrete frame naming the unregistered subsystem
`platform.matching` on a core that only has `error` and `peerlist`:
exactly one error reply is sent, echoing the original subsystem name. -/
theorem unknown_subsystem_error_reply_witness :
    (isWelcome (initialVipState (some "connect.hello.0")).ident
      { peer := "peerB", subsystem := "platform.matching", id := "id7", user := "u",
                args := ["x"] } = false)
    ∧ ("platform.matching" ∉ ["error", "peerlist"])
    ∧ (vipStep ["error", "peerlist"] false (initialVipState (some "connect.hello.0"))
        { peer := "peerB", subsystem := "platform.matching", id := "id7", user := "u",
                  args := ["x"] }).2.1.args
        = INVALID_SUBSYSTEM ++ ["platform.matching"] :=
  ⟨by decide, by decide,
   (unknown_subsystem_error_reply ["error", "peerlist"] false
     (initialVipState (some "connect.hello.0"))
     { peer := "peerB", subsystem := "platform.matching", id := "id7", user := "u",
               args := ["x"] } (by decide) (by decide)).2.2.2.2.2.2.1⟩

/-! ### Message immutability (claim C9) -/

/-- C9 counterexample: the claim says no core code path mutates a received
Message's fields after it has been parsed from the wire, but the
unknown-subsystem branch of `vip_loop` (core.py lines 828-831) mutates
the received object in place: after the loop iteration processing the
concrete frame below, the object's `subsystem` is `error` (originally
`foo`), its `user` is empty (originally `alice`) and its `args` were
replaced. -/
theorem message_mutated_on_unknown_subsystem :
    ((vipStep ["error"] false (initialVipState (some "connect.hello.0"))
      { peer := "peerA", subsystem := "foo", id := "id1", user := "alice",
                args := ["x"] }).2.1
      ≠ { peer := "peerA", subsystem := "foo", id := "id1", user := "alice",
                    args := ["x"] })
    ∧ (vipStep ["error"] false (initialVipState (some "connect.hello.0"))
      { peer := "peerA", subsystem := "foo", id := "id1", user := "alice",
                args := ["x"] }).2.1.subsystem = "error"
    ∧ (vipStep ["error"] false (initialVipState (some "connect.hello.0"))
      { peer := "peerA", subsystem := "foo", id := "id1", user := "alice",
                args := ["x"] }).2.1.user = "" := by
  decide

/-- C9 amended: the receive loop leaves a received Message's fields
unchanged on the welcome path and on the registered-handler path; only
the unknown-subsystem path mutates the object — setting `user` to the
empty string, replacing `args` with the unknown-subsystem error args plus
the original subsystem name, and setting `subsystem` to `error` — while
`peer` and `id` are never modified. -/
theorem message_fields_mutated_only_on_unknown_subsystem (subs : List String)
    (hre : Bool) (s : VipState) (m : Message) :
    (isWelcome s.ident m = true → (vipStep subs hre s m).2.1 = m)
    ∧ (isWelcome s.ident m = false → m.subsystem ∈ subs →
        (vipStep subs hre s m).2.1 = m)
    ∧ (isWelcome s.ident m = false → m.subsystem ∉ subs →
        (vipStep subs hre s m).2.1.peer = m.peer
        ∧ (vipStep subs hre s m).2.1.id = m.id
        ∧ (vipStep subs hre s m).2.1.user = ""
        ∧ (vipStep subs hre s m).2.1.subsystem = "error"
        ∧ (vipStep subs hre s m).2.1.args = INVALID_SUBSYSTEM ++ [m.subsystem]) := by
  refine ⟨?_, ?_, ?_⟩
  · intro hw
    unfold vipStep
    simp only [hw, if_true]
  · intro hw hmem
    unfold vipStep
    simp only [hw, Bool.false_eq_true, if_false]
    rw [if_pos hmem]
  · intro hw hmem
    unfold vipStep
    simp only [hw, Bool.false_eq_true, if_false]
    rw [if_neg hmem]
    exact ⟨rfl, rfl, rfl, rfl, rfl⟩

/-- Witness for C9's amended claim: a registered `peerlist` frame passes
through the loop with its fields untouched, while an unregistered `bar`
frame comes out with subsystem `error`. -/
theorem message_fields_mutated_only_on_unknown_subsystem_witness :
    ((vipStep ["error", "peerlist"] false (initialVipState none)
      { peer := "p", subsystem := "peerlist", id := "i2", user := "u",
                args := ["listing"] }).2.1
      = { peer := "p", subsystem := "peerlist", id := "i2", user := "u",
                    args := ["listing"] })
    ∧ (vipStep ["error", "peerlist"] false (initialVipState none)
      { peer := "p", subsystem := "bar", id := "i3", user := "u",
                args := [] }).2.1.subsystem = "error" :=
  ⟨(message_fields_mutated_only_on_unknown_subsystem ["error", "peerlist"] false
      (initialVipState none)
      { peer := "p", subsystem := "peerlist", id := "i2", user := "u",
                args := ["listing"] }).2.1 (by decide) (by decide),
   (message_fields_mutated_only_on_unknown_subsystem ["error", "peerlist"] false
      (initialVipState none)
      { peer := "p", subsystem := "bar", id := "i3", user := "u",
                args := [] }).2.2 (by decide) (by decide) |>.2.2.2.1⟩

/-! ### Bounded reconnect retry (claim C4) -/

theorem monitorStep_retry_increments (s : MonitorState) :
    (monitorStep s .connectRetried).reconnect_attempt = s.reconnect_attempt + 1 := by
  unfold monitorStep
  dsimp only
  split <;> rfl

theorem monitorStep_retains (s : MonitorState) (e : MonitorEvent) :
    (s.stopped = true → (monitorStep s e).stopped = true)
    ∧ (s.ondisconnectedFired = true → (monitorStep s e).ondisconnectedFired = true)
    ∧ (s.connected = false → (monitorStep s e).connected = false) := by
  cases e <;> unfold monitorStep <;> dsimp only <;>
    refine ⟨fun h => ?_, fun h => ?_, fun h => ?_⟩ <;>
    first
      | exact h
      | rfl
      | (split <;> simp [h])

theorem runMonitor_retains (events : List MonitorEvent) : ∀ s : MonitorState,
    s.stopped = true → s.ondisconnectedFired = true → s.connected = false →
    (runMonitor s events).stopped = true
    ∧ (runMonitor s events).ondisconnectedFired = true
    ∧ (runMonitor s events).connected = false := by
  induction events with
  | nil => intro s h1 h2 h3; exact ⟨h1, h2, h3⟩
  | cons e rest ih =>
    intro s h1 h2 h3
    cases e with
    | monitorStopped => exact ⟨h1, h2, h3⟩
    | connected =>
      exact ih _ ((monitorStep_retains s _).1 h1)
        ((monitorStep_retains s _).2.1 h2) ((monitorStep_retains s _).2.2 h3)
    | disconnected =>
      exact ih _ ((monitorStep_retains s _).1 h1)
        ((monitorStep_retains s _).2.1 h2) ((monitorStep_retains s _).2.2 h3)
    | connectRetried =>
      exact ih _ ((monitorStep_retains s _).1 h1)
        ((monitorStep_retains s _).2.1 h2) ((monitorStep_retains s _).2.2 h3)
    | other =>
      exact ih _ ((monitorStep_retains s _).1 h1)
        ((monitorStep_retains s _).2.1 h2) ((monitorStep_retains s _).2.2 h3)

theorem runMonitor_gives_up_aux (events : List MonitorEvent) :
    ∀ s : MonitorState, MonitorEvent.monitorStopped ∉ events →
    s.reconnect_attempt < 50 →
    50 ≤ s.reconnect_attempt + retryCount events →
    (runMonitor s events).stopped = true
    ∧ (runMonitor s events).ondisconnectedFired = true
    ∧ (runMonitor s events).connected = false := by
  induction events with
  | nil =>
    intro s _ h1 h2
    simp [retryCount, List.filter] at h2
    omega
  | cons e rest ih =>
    intro s hstop h1 h2
    have hstop' : MonitorEvent.monitorStopped ∉ rest :=
      fun h => hstop (List.mem_cons_of_mem _ h)
    cases e with
    | monitorStopped => exact absurd (List.mem_cons_self _ _) hstop
    | connectRetried =>
      have hcount : retryCount (MonitorEvent.connectRetried :: rest)
          = retryCount rest + 1 := by
        simp [retryCount, List.filter, isRetry]
      by_cases h50 : s.reconnect_attempt + 1 = 50
      · have hstep : monitorStep s .connectRetried
            = { s with reconnect_attempt := s.reconnect_attempt + 1,
                       connected := false, stopped := true,
                       ondisconnectedFired := true } := by
          unfold monitorStep
          dsimp only
          rw [if_pos h50]
        have hrun : runMonitor s (MonitorEvent.connectRetried :: rest)
            = runMonitor (monitorStep s .connectRetried) rest := rfl
        rw [hrun, hstep]
        refine runMonitor_retains rest _ ?_ ?_ ?_ <;> rfl
      · have hstep : monitorStep s .connectRetried
            = { s with reconnect_attempt := s.reconnect_attempt + 1 } := by
          unfold monitorStep
          dsimp only
          rw [if_neg h50]
        have hrun : runMonitor s (MonitorEvent.connectRetried :: rest)
            = runMonitor (monitorStep s .connectRetried) rest := rfl
        rw [hrun, hstep]
        refine ih _ hstop' ?_ ?_
        · show s.reconnect_attempt + 1 < 50
          omega
        · show 50 ≤ s.reconnect_attempt + 1 + retryCount rest
          rw [hcount] at h2
          omega
    | connected =>
      have hstep : monitorStep s .connected
          = { s with helloSent := s.helloSent + 1 } := rfl
      have hrun : runMonitor s (MonitorEvent.connected :: rest)
          = runMonitor (monitorStep s .connected) rest := rfl
      rw [hrun, hstep]
      have hcount : retryCount (MonitorEvent.connected :: rest) = retryCount rest := by
        simp [retryCount, List.filter, isRetry]
      rw [hcount] at h2
      exact ih _ hstop' h1 h2
    | disconnected =>
      have hstep : monitorStep s .disconnected = { s with connected := false } := rfl
      have hrun : runMonitor s (MonitorEvent.disconnected :: rest)
          = runMonitor (monitorStep s .disconnected) rest := rfl
      rw [hrun, hstep]
      have hcount : retryCount (MonitorEvent.disconnected :: rest) = retryCount rest := by
        simp [retryCount, List.filter, isRetry]
      rw [hcount] at h2
      exact ih _ hstop' h1 h2
    | other =>
      have hstep : monitorStep s .other = s := rfl
      have hrun : runMonitor s (MonitorEvent.other :: rest)
          = runMonitor (monitorStep s .other) rest := rfl
      rw [hrun, hstep]
      have hcount : retryCount (MonitorEvent.other :: rest) = retryCount rest := by
        simp [retryCount, List.filter, isRetry]
      rw [hcount] at h2
      exact ih _ hstop' h1 h2

/-- C4: every transport-reported connect-retry event increments the
reconnect-attempt counter, and once 50 retries have been reported (the
counter, starting at 0, reaches the hardcoded bound 50) the core gives
up: `connected` is false, `stop()` has been called and the
`ondisconnected` signal has fired — the loop does not retry forever. -/
theorem monitor_bounded_retry (events : List MonitorEvent)
    (hstop : MonitorEvent.monitorStopped ∉ events)
    (hcount : 50 ≤ retryCount events) :
    ((runMonitor initialMonitorState events).stopped = true
      ∧ (runMonitor initialMonitorState events).connected = false
      ∧ (runMonitor initialMonitorState events).ondisconnectedFired = true)
    ∧ ∀ s : MonitorState,
        (monitorStep s .connectRetried).reconnect_attempt = s.reconnect_attempt + 1 := by
  have h := runMonitor_gives_up_aux events initialMonitorState hstop
    (by simp [initialMonitorState]) (by simp [initialMonitorState]; omega)
  exact ⟨⟨h.1, h.2.2, h.2.1⟩, monitorStep_retry_increments⟩

/-- Witness for C4: a stream of exactly 50 connect-retry events makes the
core stop, clear `connected` and fire `ondisconnected`. -/
theorem monitor_bounded_retry_witness :
    (MonitorEvent.monitorStopped ∉ List.replicate 50 MonitorEvent.connectRetried)
    ∧ 50 ≤ retryCount (List.replicate 50 MonitorEvent.connectRetried)
    ∧ (runMonitor initialMonitorState
        (List.replicate 50 MonitorEvent.connectRetried)).stopped = true :=
  ⟨by decide, by decide,
   ((monitor_bounded_retry (List.replicate 50 MonitorEvent.connectRetried)
      (by decide) (by decide)).1).1⟩

/-! ### Pending-result table no-ops (claim C7) -/

/-- C7: resolving or rejecting a correlation id that is unknown to (or
already removed from) the `PeerList` pending-results table is a no-op:
the reply handler (`listing` and `listing_with_messagebus` operations)
and the error handler return with the state unchanged and no effects
(no exception — the handlers are total), and a second handling of the
same id never completes a future twice, because the first successful
handling removed the id. -/
theorem pending_result_unknown_id_noop (st : PeerListState) (m : Message)
    (hid : st.results m.id = false) :
    (m.args.head? = some "listing" → handle_subsystem st m = (st, []))
    ∧ (m.args.head? = some "listing_with_messagebus" → handle_subsystem st m = (st, []))
    ∧ handle_error_peerlist st m = (st, [])
    ∧ (∀ st₂ : PeerListState,
        (handle_error_peerlist (handle_error_peerlist st₂ m).1 m).2 = [])
    ∧ (∀ st₂ : PeerListState, m.args.head? = some "listing" →
        (handle_subsystem (handle_subsystem st₂ m).1 m).2 = []) := by
  have hpop : rdPop st.results m.id = none := by
    unfold rdPop
    rw [if_neg (by simp [hid])]
  refine ⟨?_, ?_, ?_, ?_, ?_⟩
  · intro hop
    unfold handle_subsystem
    rw [hop]
    simp [hpop]
  · intro hop
    unfold handle_subsystem
    rw [hop]
    simp [hpop]
  · unfold handle_error_peerlist
    rw [hpop]
  · intro st₂
    unfold handle_error_peerlist
    cases hp : rdPop st₂.results m.id with
    | none => simp [hp]
    | some rest =>
      have hrest : rest m.id = false := by
        unfold rdPop at hp
        by_cases hin : st₂.results m.id = true
        · rw [if_pos hin] at hp
          cases hp
          simp
        · rw [if_neg hin] at hp
          cases hp
      have : rdPop rest m.id = none := by
        unfold rdPop
        rw [if_neg (by simp [hrest])]
      simp [hp, this]
  · intro st₂ hop
    unfold handle_subsystem
    rw [hop]
    cases hp : rdPop st₂.results m.id with
    | none => simp [hp, hop]
    | some rest =>
      have hrest : rest m.id = false := by
        unfold rdPop at hp
        by_cases hin : st₂.results m.id = true
        · rw [if_pos hin] at hp
          cases hp
          simp
        · rw [if_neg hin] at hp
          cases hp
      have hp2 : rdPop rest m.id = none := by
        unfold rdPop
        rw [if_neg (by simp [hrest])]
      simp [hp, hop, hp2]

/-- Witness for C7: a `listing` reply whose id `idX` has no pending entry
leaves the table untouched and produces no completion. -/
theorem pending_result_unknown_id_noop_witness :
    (({ results := fun _ => false, peers_list := [] } : PeerListState).results "idX" = false)
    ∧ handle_subsystem { results := fun _ => false, peers_list := [] }
        { peer := "", subsystem := "peerlist", id := "idX", user := "",
                  args := ["listing"] }
      = ({ results := fun _ => false, peers_list := [] }, [])
    ∧ handle_error_peerlist { results := fun _ => false, peers_list := [] }
        { peer := "", subsystem := "peerlist", id := "idX", user := "",
                  args := ["listing"] }
      = ({ results := fun _ => false, peers_list := [] }, []) :=
  ⟨rfl,
   (pending_result_unknown_id_noop { results := fun _ => false, peers_list := [] }
     { peer := "", subsystem := "peerlist", id := "idX", user := "",
               args := ["listing"] } rfl).1 rfl,
   (pending_result_unknown_id_noop { results := fun _ => false, peers_list := [] }
     { peer := "", subsystem := "peerlist", id := "idX", user := "",
               args := ["listing"] } rfl).2.2.1⟩

end Volttron
